/-
Verification of the firewall/policy evaluator and container lifecycle logic of
`docker_compose_manager.py`.

The Python functions are shallowly embedded as Lean definitions:

* raw JSON rule records (Python dicts) become typed structures whose string
  fields carry the value of `rule.get(key, "")` (an absent key is the empty
  string, matching the Python default), and whose optional fields model
  `rule.get` with a non-trivial default applied at the use site;
* Python dicts keyed by port / profile name become association lists in
  insertion order (lookup takes the last binding, as dict insertion does);
* Python sets become lists with membership-based (duplicate-free) insertion;
* external effects (subprocess calls) become an explicit oracle environment
  plus a trace of issued invocations;
* exceptions caught by `parse_compose_services` become an input sum type
  describing the outcome of opening/parsing the file.
-/
import Mathlib

namespace DockerComposeManager

/-- Python's `str.capitalize()`: first character upper-cased, the rest
lower-cased. -/
def pyCapitalize (s : String) : String :=
  match s.data with
  | [] => ""
  | c :: cs => String.mk (c.toUpper :: cs.map Char.toLower)

/-- Python's `str.lower()`: every character lower-cased. -/
def pyLower (s : String) : String :=
  String.mk (s.data.map Char.toLower)

/-- Python's `str.strip()` on a character list: drop leading and trailing
whitespace. -/
def pyStripList (l : List Char) : List Char :=
  ((l.dropWhile Char.isWhitespace).reverse.dropWhile Char.isWhitespace).reverse

/-- Python's `str.strip()`. -/
def pyStrip (s : String) : String :=
  String.mk (pyStripList s.data)

/-- Helper for `pySplitComma`: accumulate the current field (reversed). -/
def pySplitCommaAux (acc : List Char) : List Char → List String
  | [] => [String.mk acc.reverse]
  | c :: cs =>
      if c = ',' then String.mk acc.reverse :: pySplitCommaAux [] cs
      else pySplitCommaAux (c :: acc) cs

/-- Python's `str.split(",")`: always at least one field, empty fields kept. -/
def pySplitComma (s : String) : List String :=
  pySplitCommaAux [] s.data

/-- The value found under `"LocalPort"` in a raw port-rule record: the key may
be absent, hold a string, or hold an object with a `"value"` key carrying a
list of port strings (any other shape contributes no ports). -/
inductive LocalPortVal where
  | absent
  | str (s : String)
  | valueList (ports : List String)
  | otherShape
deriving Repr, DecidableEq

/-- A raw inbound port firewall rule, as produced by the PowerShell query.
String fields model `rule.get(key, "")`; `Name`/`DisplayName` are optional
because their defaults differ at each use site. -/
structure PortRule where
  Name : Option String
  DisplayName : Option String
  Enabled : String
  Action : String
  Profile : String
  LocalPort : LocalPortVal
deriving Repr, DecidableEq

/-- The list of port strings a rule carries (`ports` in the Python loop). -/
def portsOfRule (rule : PortRule) : List String :=
  match rule.LocalPort with
  | .absent => []
  | .str s => [s]
  | .valueList ps => ps
  | .otherShape => []

/-- `str(port) not in ports` negated: the rule matches the required port. -/
def matchesPort (port : Nat) (rule : PortRule) : Bool :=
  (portsOfRule rule).contains (toString port)

/-- The rule's action, normalized as the Python code does
(`rule.get("Action", "").strip().lower()`), is a recognized action. -/
def recognizedAction (rule : PortRule) : Bool :=
  pyLower (pyStrip rule.Action) == "allow" || pyLower (pyStrip rule.Action) == "block"

/-- `rule.get("DisplayName", rule.get("Name", "Unnamed"))`. -/
def matchedRuleName (rule : PortRule) : String :=
  rule.DisplayName.getD (rule.Name.getD "Unnamed")

/-- Per-port evaluation record built by `check_required_ports_exist`.
`profiles` models the Python set as a duplicate-free list. -/
structure PortCheckResult where
  found : Bool
  enabled : Bool
  action : String
  all_profiles : Bool
  matched_rules : List String
  profiles : List String
deriving Repr, DecidableEq

/-- The fresh result record for one required port. -/
def initResult : PortCheckResult :=
  { found := false, enabled := false, action := "", all_profiles := false,
    matched_rules := [], profiles := [] }

/-- Set insertion for the `profiles` field (Python `set.update`, one element). -/
def listInsert (l : List String) (x : String) : List String :=
  if l.contains x then l else l ++ [x]

/-- Set union for the `profiles` field (Python `set.update`). -/
def listUnion (l : List String) (xs : List String) : List String :=
  xs.foldl listInsert l

/-- `{p.strip() for p in rule.get("Profile", "").split(",")}`. -/
def ruleProfileTokens (rule : PortRule) : List String :=
  (pySplitComma rule.Profile).map pyStrip

/-- One iteration of the inner `for rule in port_rules` loop of
`check_required_ports_exist`, updating the per-port result record. -/
def updateResult (port : Nat) (result : PortCheckResult) (rule : PortRule) :
    PortCheckResult :=
  if matchesPort port rule then
    let r1 : PortCheckResult :=
      { result with
          found := true
          matched_rules := result.matched_rules ++ [matchedRuleName rule] }
    let r2 : PortCheckResult :=
      if pyLower rule.Enabled == "true" then { r1 with enabled := true } else r1
    let act := pyLower (pyStrip rule.Action)
    let r3 : PortCheckResult :=
      if act == "allow" || act == "block" then
        { r2 with action := pyCapitalize act }
      else if r2.action == "" then
        { r2 with action := "Unknown" }
      else r2
    let ps := ruleProfileTokens rule
    let r4 : PortCheckResult := { r3 with profiles := listUnion r3.profiles ps }
    if (["Domain", "Private", "Public"].all ps.contains) || ps.contains "Any" then
      { r4 with all_profiles := true }
    else r4
  else result

/-- The full inner scan of `check_required_ports_exist` for one required port. -/
def scanPort (port : Nat) (port_rules : List PortRule) : PortCheckResult :=
  port_rules.foldl (updateResult port) initResult

/-- `check_required_ports_exist`: the per-port evaluation mapping, modelled as
an association list over the required-port list (the configured
`REQUIRED_PORTS` global is passed explicitly). -/
def check_required_ports_exist (requiredPorts : List Nat)
    (port_rules : List PortRule) : List (Nat × PortCheckResult) :=
  requiredPorts.map (fun port => (port, scanPort port port_rules))

/-- The value under `"ActiveProfile"` in the PowerShell JSON: the code only
stringifies `str` and `int` values; anything else yields the empty profile
name. An absent key defaults to `""`, i.e. `.str ""`. -/
inductive ActiveProfileVal where
  | str (s : String)
  | int (n : Int)
  | otherShape
deriving Repr, DecidableEq

/-- One entry of the `"Profiles"` list (`{Name, Enabled}`). -/
structure ProfileEntry where
  Name : String
  Enabled : String
deriving Repr, DecidableEq

/-- A raw Docker-backend firewall rule. `DisplayName` is optional because the
code applies the default `"Docker Desktop Backend"` at the use site;
`Name` models `rule.get("Name", "")`. -/
structure DockerRule where
  Name : String
  DisplayName : Option String
  Enabled : String
  Action : String
  Profile : String
deriving Repr, DecidableEq

/-- The parsed JSON document handed to `evaluate_firewall_conditions`: an
absent list-valued key defaults to `[]` as `data.get(key, [])` does. -/
structure FirewallData where
  ActiveProfile : ActiveProfileVal
  Profiles : List ProfileEntry
  DockerRules : List DockerRule
  PortRules : List PortRule

/-- `parse_firewall_profiles`: dict comprehension
`{p["Name"]: p["Enabled"].lower() == "true" for p in profiles}` as an
association list in insertion order. -/
def parse_firewall_profiles (profiles : List ProfileEntry) :
    List (String × Bool) :=
  profiles.map (fun p => (p.Name, pyLower p.Enabled == "true"))

/-- Python dict lookup with default: the last binding of a key wins. -/
def dictGetD (m : List (String × Bool)) (k : String) (d : Bool) : Bool :=
  match m.reverse.find? (fun kv => kv.1 == k) with
  | some kv => kv.2
  | none => d

/-- `evaluate_active_profile`: the active profile's enabled flag, `False`
when the profile is missing from the map. -/
def evaluate_active_profile (data : FirewallData) (active_profile : String) :
    Bool :=
  dictGetD (parse_firewall_profiles data.Profiles) active_profile false

/-- Whether the tail of the raw rule name matches the dropped suffix of the
regex `^(.*?)(?:\x7b.*|\s*C:\\.*)?$`: empty, or starting with a brace, or
whitespace followed by `C:\`. -/
def connSuffixOk (t : List Char) : Bool :=
  match t with
  | [] => true
  | c :: _ =>
      c == Char.ofNat 123 ||
      (match t.dropWhile Char.isWhitespace with
       | 'C' :: ':' :: '\\' :: _ => true
       | _ => false)

/-- Non-greedy capture of the regex above: the shortest prefix whose
remainder is an acceptable suffix. -/
def connScan (acc : List Char) : List Char → List Char
  | [] => acc.reverse
  | c :: cs =>
      if connSuffixOk (c :: cs) then acc.reverse else connScan (c :: acc) cs

/-- `conn_type`: `conn_match.group(1).strip()` of the rule name. -/
def connTypeOf (raw_name : String) : String :=
  pyStrip (String.mk (connScan [] raw_name.data))

/-- The rule's label appended to its allow/block bucket. -/
def dockerRuleLabel (rule : DockerRule) : String :=
  rule.DisplayName.getD "Docker Desktop Backend" ++ " " ++ connTypeOf rule.Name

/-- One iteration of the `for rule in data.get("DockerRules", [])` loop:
skip disabled rules and unrecognized actions, then bucket the rule's label
under its normalized profile key in the allow or block multimap (modelled as
a list of key-value pairs; a key is present iff some pair carries it). -/
def dockerStep (acc : List (String × String) × List (String × String))
    (rule : DockerRule) : List (String × String) × List (String × String) :=
  if pyLower rule.Enabled == "true" then
    let action := pyLower rule.Action
    if action == "allow" || action == "block" then
      let profile := pyCapitalize (pyStrip rule.Profile)
      let label := dockerRuleLabel rule
      if action == "allow" then (acc.1 ++ [(profile, label)], acc.2)
      else (acc.1, acc.2 ++ [(profile, label)])
    else acc
  else acc

/-- `evaluate_docker_rules`: builds the allow/block buckets, then returns
`(docker_ok, has_blocked)` — whether some profile among Public, Private has a
non-empty allow bucket, resp. a non-empty block bucket. -/
def evaluate_docker_rules (data : FirewallData) : Bool × Bool :=
  let buckets := data.DockerRules.foldl dockerStep ([], [])
  (["Public", "Private"].any (fun profile => buckets.1.any (fun kv => kv.1 == profile)),
   ["Public", "Private"].any (fun profile => buckets.2.any (fun kv => kv.1 == profile)))

/-- `evaluate_port_rules`: every required port's result must be found,
enabled, explicitly allowed and scoped to all profiles. -/
def evaluate_port_rules (requiredPorts : List Nat) (data : FirewallData) :
    Bool :=
  let ports := check_required_ports_exist requiredPorts data.PortRules
  ports.all (fun e =>
    e.2.found && e.2.enabled && (e.2.action == "Allow") && e.2.all_profiles)

/-- The normalized active profile name computed at the top of
`evaluate_firewall_conditions`
(`str(raw_profile).capitalize() if isinstance(raw_profile, (str, int)) else ""`). -/
def activeProfileName (data : FirewallData) : String :=
  match data.ActiveProfile with
  | .str s => pyCapitalize s
  | .int n => pyCapitalize (toString n)
  | .otherShape => ""

/-- `evaluate_firewall_conditions`: runs each enforced check and combines
them as `all([profiles_ok, docker_ok, ports_ok]) and not has_blocked`. -/
def evaluate_firewall_conditions (requiredPorts : List Nat)
    (data : FirewallData) (enforce_active_profile : Bool)
    (enforce_docker_backend : Bool) (enforce_ports : Bool) : Bool :=
  let profiles_ok :=
    if enforce_active_profile then
      evaluate_active_profile data (activeProfileName data)
    else true
  let dockerPair :=
    if enforce_docker_backend then evaluate_docker_rules data
    else (true, false)
  let ports_ok :=
    if enforce_ports then evaluate_port_rules requiredPorts data else true
  ([profiles_ok, dockerPair.1, ports_ok].all (fun b => b)) && !dockerPair.2

/-- Modelled from the spec's invariant wording: the gate decision written as
`activeProfileOk && backendRulesOk && portsOk && !anyBlocked`, each sub-result
forced to `true` (and `anyBlocked` to `false`) when its enforcement flag is
disabled, and otherwise computed by its check function. -/
def gateSpecFormula (requiredPorts : List Nat) (data : FirewallData)
    (enforce_active_profile : Bool) (enforce_docker_backend : Bool)
    (enforce_ports : Bool) : Bool :=
  let activeProfileOk :=
    if enforce_active_profile then
      evaluate_active_profile data (activeProfileName data)
    else true
  let backendRulesOk :=
    if enforce_docker_backend then (evaluate_docker_rules data).1 else true
  let portsOk :=
    if enforce_ports then evaluate_port_rules requiredPorts data else true
  let anyBlocked :=
    if enforce_docker_backend then (evaluate_docker_rules data).2 else false
  activeProfileOk && backendRulesOk && portsOk && !anyBlocked

/-- An external container-runtime invocation issued by the lifecycle code:
the container-status probe (`docker container ls`) or a compose command
(`docker compose ... <action> <service>`). -/
inductive Invocation where
  | statusProbe (svc : String)
  | compose (action : String) (svc : String)
deriving Repr, DecidableEq

/-- The process-wide configuration and the external world the lifecycle code
interacts with: per-direction ignore lists, the outcome of the status probe,
the outcome of a compose command, and the wall-clock duration the spinner
measures for a given title. -/
structure Env where
  ignoreUp : List String
  ignoreDown : List String
  statusOf : String → Bool
  composeOk : String → String → Bool
  elapsedOf : String → Rat

/-- `DockerComposeManager.run_docker_compose`: issues one compose command and
reports its success. -/
def run_docker_compose (env : Env) (action : String) (svc : String) :
    Bool × List Invocation :=
  (env.composeOk action svc, [Invocation.compose action svc])

/-- `DockerComposeManager.check_container_status`: issues one status probe. -/
def check_container_status (env : Env) (svc : String) :
    Bool × List Invocation :=
  (env.statusOf svc, [Invocation.statusProbe svc])

/-- `container_task`: skip a down-ignored service; always compose on `up`;
on other actions probe first and compose only when the container is present. -/
def container_task (env : Env) (svc : String) (action : String) :
    Bool × List Invocation :=
  if action == "down" && env.ignoreDown.contains svc then (true, [])
  else if action == "up" then run_docker_compose env action svc
  else
    let probe := check_container_status env svc
    if probe.1 then
      let task := run_docker_compose env action svc
      (task.1, probe.2 ++ task.2)
    else (true, probe.2)

/-- `run_container_task_with_spinner`: runs `container_task` and pairs the
result with the spinner's measured duration. -/
def run_container_task_with_spinner (env : Env) (title : String)
    (svc : String) (action : String) : (Bool × Rat) × List Invocation :=
  let task := container_task env svc action
  ((task.1, env.elapsedOf title), task.2)

/-- `run_service_action`: skip a service ignored for this direction with a
`(True, 0.0)` outcome and no external call; otherwise bring it up, or probe
and take it down only when it is currently present. -/
def run_service_action (env : Env) (svc : String) (action : String) :
    (Bool × Rat) × List Invocation :=
  if (action == "up" && env.ignoreUp.contains svc) ||
     (action == "down" && env.ignoreDown.contains svc) then
    ((true, 0), [])
  else if action == "up" then
    run_container_task_with_spinner env ("Starting " ++ svc) svc "up"
  else
    let probe := check_container_status env svc
    if probe.1 then
      let task := run_container_task_with_spinner env ("Stopping " ++ svc) svc "down"
      (task.1, probe.2 ++ task.2)
    else ((true, 0), probe.2)

/-- The orphan list computed by `remove_orphan_containers`: the running
container names outside `expected_services.union(IGNORE_CONTAINERS_DOWN)`
(set union modelled by membership in the concatenation). -/
def orphanedContainers (expected_services : List String)
    (ignoreDown : List String) (running_containers : List String) :
    List String :=
  running_containers.filter
    (fun c => !((expected_services ++ ignoreDown).contains c))

/-- `remove_orphan_containers`: one forced-removal attempt per orphan, in
order, each succeeding or failing independently per the `rmOk` oracle. -/
def remove_orphan_containers (rmOk : String → Bool)
    (expected_services : List String) (ignoreDown : List String)
    (running_containers : List String) : List (String × Bool) :=
  (orphanedContainers expected_services ignoreDown running_containers).map
    (fun orphan => (orphan, rmOk orphan))

/-- The top-level mapping of a parsed compose document: each key paired with
the key list of its sub-mapping (only `services` keys are consumed). -/
structure ComposeDoc where
  toplevel : List (String × List String)
deriving Repr, DecidableEq

/-- `compose_data.get('services', {}).keys()` (last binding wins, default
empty mapping). -/
def docServices (doc : ComposeDoc) : List String :=
  match doc.toplevel.reverse.find? (fun kv => kv.1 == "services") with
  | some kv => kv.2
  | none => []

/-- The outcome of opening and YAML-parsing a compose descriptor: success, or
one of the four exception classes `parse_compose_services` catches. -/
inductive ReadOutcome where
  | ok (doc : ComposeDoc)
  | fileNotFound
  | permissionDenied
  | yamlError (msg : String)
  | osError (msg : String)
deriving Repr, DecidableEq

/-- The distinct error record each failure branch logs. -/
inductive ComposeLogError where
  | fileNotFound
  | permissionDenied
  | yamlError
  | osError
deriving Repr, DecidableEq

/-- `parse_compose_services`: the service-name list on success, and on each
caught exception the empty list together with that cause's log record; a
total function, so no failure mode aborts the run. -/
def parse_compose_services (outcome : ReadOutcome) :
    List String × Option ComposeLogError :=
  match outcome with
  | .ok doc => (docServices doc, none)
  | .fileNotFound => ([], some .fileNotFound)
  | .permissionDenied => ([], some .permissionDenied)
  | .yamlError _ => ([], some .yamlError)
  | .osError _ => ([], some .osError)

/-- The capitalized action of the last matching rule with a recognized
action, scanning the rule list for one required port. -/
def lastRecognizedCap (port : Nat) : List PortRule → Option String
  | [] => none
  | r :: rest =>
      match lastRecognizedCap port rest with
      | some a => some a
      | none =>
          if matchesPort port r && recognizedAction r then
            some (pyCapitalize (pyLower (pyStrip r.Action)))
          else none

/-- Modelled from the spec's wording for comparison with the code: the
capitalized action of the first matching rule with a recognized action. -/
def firstRecognizedCap (port : Nat) : List PortRule → Option String
  | [] => none
  | r :: rest =>
      if matchesPort port r && recognizedAction r then
        some (pyCapitalize (pyLower (pyStrip r.Action)))
      else firstRecognizedCap port rest

/-- The rule is enabled, an allow rule, and normalizes to profile `p`. -/
def allowSel (p : String) (r : DockerRule) : Bool :=
  (pyLower r.Enabled == "true") && (pyLower r.Action == "allow") &&
    (pyCapitalize (pyStrip r.Profile) == p)

/-- The rule is enabled, a block rule, and normalizes to profile `p`. -/
def blockSel (p : String) (r : DockerRule) : Bool :=
  (pyLower r.Enabled == "true") && (pyLower r.Action == "block") &&
    (pyCapitalize (pyStrip r.Profile) == p)

/-! ### Concrete data used by witnesses and counterexamples -/

/-- An enabled inbound allow rule for port 80, scoped to all profiles. -/
def cexAllowRule : PortRule :=
  { Name := some "AllowWeb", DisplayName := some "Allow Web 80",
    Enabled := "True", Action := "Allow", Profile := "Any",
    LocalPort := LocalPortVal.str "80" }

/-- An enabled inbound block rule for port 80, scoped to all profiles. -/
def cexBlockRule : PortRule :=
  { Name := some "BlockWeb", DisplayName := some "Block Web 80",
    Enabled := "True", Action := "Block", Profile := "Any",
    LocalPort := LocalPortVal.str "80" }

/-- Firewall data whose only port rule allows port 80; no rule mentions 443. -/
def cexPortData : FirewallData :=
  { ActiveProfile := .str "Private",
    Profiles := [{ Name := "Private", Enabled := "True" }],
    DockerRules := [], PortRules := [cexAllowRule] }

/-- Firewall data with one enabled Docker-backend Block rule on Private. -/
def cexBlockData : FirewallData :=
  { ActiveProfile := .str "Private",
    Profiles := [{ Name := "Private", Enabled := "True" }],
    DockerRules := [{ Name := "DockerBlock",
                      DisplayName := some "Docker Desktop Backend",
                      Enabled := "True", Action := "Block",
                      Profile := "Private" }],
    PortRules := [] }

/-- Firewall data with one enabled Docker-backend Allow rule on Public. -/
def cexAllowData : FirewallData :=
  { ActiveProfile := .str "Private",
    Profiles := [],
    DockerRules := [{ Name := "DockerAllow",
                      DisplayName := some "Docker Desktop Backend",
                      Enabled := "True", Action := "Allow",
                      Profile := "Public" }],
    PortRules := [] }

/-- An enabled Docker-backend Allow rule whose profile field names two
profiles at once. -/
def cexMultiProfileRule : DockerRule :=
  { Name := "DockerMulti", DisplayName := some "Docker Desktop Backend",
    Enabled := "True", Action := "Allow", Profile := "Private,Public" }

/-- A lifecycle environment: `a` ignored on up, `b` ignored on down, every
container reported present, every compose command succeeding. -/
def demoEnv : Env :=
  { ignoreUp := ["a"], ignoreDown := ["b"],
    statusOf := fun _ => true, composeOk := fun _ _ => true,
    elapsedOf := fun _ => 0 }

/-! ### Helper lemmas about the per-port rule scan -/

lemma updateResult_found (port : Nat) (res : PortCheckResult)
    (rule : PortRule) :
    (updateResult port res rule).found = (res.found || matchesPort port rule) := by
  by_cases h : matchesPort port rule
  · simp only [updateResult, h, if_true]
    split_ifs <;> simp
  · simp [updateResult, h]

lemma updateResult_enabled (port : Nat) (res : PortCheckResult)
    (rule : PortRule) :
    (updateResult port res rule).enabled =
      (res.enabled || (matchesPort port rule && (pyLower rule.Enabled == "true"))) := by
  by_cases h : matchesPort port rule
  · simp only [updateResult, h, if_true]
    split_ifs with h1 <;> simp_all
  · simp [updateResult, h]

lemma updateResult_action (port : Nat) (res : PortCheckResult)
    (rule : PortRule) :
    (updateResult port res rule).action =
      (if matchesPort port rule then
        (if recognizedAction rule then pyCapitalize (pyLower (pyStrip rule.Action))
         else if res.action = "" then "Unknown" else res.action)
       else res.action) := by
  by_cases h : matchesPort port rule
  · simp only [updateResult, h, if_true, recognizedAction]
    split_ifs <;> simp_all
  · simp [updateResult, h]

lemma foldl_updateResult_found (port : Nat) (rules : List PortRule)
    (acc : PortCheckResult) :
    (rules.foldl (updateResult port) acc).found =
      (acc.found || rules.any (fun r => matchesPort port r)) := by
  induction rules generalizing acc with
  | nil => simp
  | cons r rest ih =>
      simp [List.foldl_cons, ih, updateResult_found, Bool.or_assoc]

lemma foldl_updateResult_enabled (port : Nat) (rules : List PortRule)
    (acc : PortCheckResult) :
    (rules.foldl (updateResult port) acc).enabled =
      (acc.enabled ||
        rules.any (fun r => matchesPort port r && (pyLower r.Enabled == "true"))) := by
  induction rules generalizing acc with
  | nil => simp
  | cons r rest ih =>
      simp [List.foldl_cons, ih, updateResult_enabled, Bool.or_assoc]

lemma recognizedCap_ne_empty {rule : PortRule}
    (h : recognizedAction rule = true) :
    pyCapitalize (pyLower (pyStrip rule.Action)) ≠ "" := by
  simp only [recognizedAction, Bool.or_eq_true, beq_iff_eq] at h
  rcases h with h1 | h1 <;> rw [h1] <;> decide

lemma updateResult_of_not_matches {port : Nat} {res : PortCheckResult}
    {rule : PortRule} (h : ¬ matchesPort port rule) :
    updateResult port res rule = res := by
  simp [updateResult, h]

lemma foldl_updateResult_action (port : Nat) (rules : List PortRule)
    (acc : PortCheckResult) :
    (rules.foldl (updateResult port) acc).action =
      (match lastRecognizedCap port rules with
       | some a => a
       | none =>
           if rules.any (fun r => matchesPort port r) ∧ acc.action = "" then
             "Unknown"
           else acc.action) := by
  induction rules generalizing acc with
  | nil => simp [lastRecognizedCap]
  | cons r rest ih =>
      rw [List.foldl_cons, ih]
      cases hL : lastRecognizedCap port rest with
      | some a => simp [lastRecognizedCap, hL]
      | none =>
          by_cases hm : matchesPort port r
          · by_cases hr : recognizedAction r
            · have hact : (updateResult port acc r).action =
                  pyCapitalize (pyLower (pyStrip r.Action)) := by
                rw [updateResult_action]
                simp [hm, hr]
              have hne : ¬ ((rest.any (fun r => matchesPort port r)) = true ∧
                  pyCapitalize (pyLower (pyStrip r.Action)) = "") := by
                intro hc
                exact recognizedCap_ne_empty hr hc.2
              simp only [lastRecognizedCap, hL, hm, hr, Bool.and_self,
                if_true, hact]
              exact if_neg hne
            · have hact : (updateResult port acc r).action =
                  (if acc.action = "" then "Unknown" else acc.action) := by
                rw [updateResult_action]
                simp [hm, hr]
              have hne : (updateResult port acc r).action ≠ "" := by
                rw [hact]
                by_cases he : acc.action = "" <;> simp [he]
              simp only [lastRecognizedCap, hL, hm, hr, Bool.and_false,
                if_false, List.any_cons, hm, Bool.true_or]
              have : ¬ (rest.any (fun r => matchesPort port r) ∧
                  (updateResult port acc r).action = "") := fun hc => hne hc.2
              simp only [this, if_false, hact]
              by_cases he : acc.action = "" <;> simp [he]
          · rw [updateResult_of_not_matches hm]
            simp [lastRecognizedCap, hL, hm]

/-! ### Helper lemmas about the Docker backend rule buckets -/

lemma dockerStep_fst_any (acc : List (String × String) × List (String × String))
    (rule : DockerRule) (p : String) :
    ((dockerStep acc rule).1.any (fun kv => kv.1 == p)) =
      (acc.1.any (fun kv => kv.1 == p) || allowSel p rule) := by
  unfold dockerStep allowSel
  by_cases h1 : pyLower rule.Enabled == "true" <;>
    by_cases h2 : pyLower rule.Action == "allow" <;>
      by_cases h3 : pyLower rule.Action == "block" <;>
        simp_all [List.any_append]

lemma dockerStep_snd_any (acc : List (String × String) × List (String × String))
    (rule : DockerRule) (p : String) :
    ((dockerStep acc rule).2.any (fun kv => kv.1 == p)) =
      (acc.2.any (fun kv => kv.1 == p) || blockSel p rule) := by
  unfold dockerStep blockSel
  by_cases h1 : pyLower rule.Enabled == "true" <;>
    by_cases h2 : pyLower rule.Action == "allow" <;>
      by_cases h3 : pyLower rule.Action == "block" <;>
        simp_all [List.any_append]

lemma foldl_dockerStep_fst_any (rules : List DockerRule)
    (acc : List (String × String) × List (String × String)) (p : String) :
    ((rules.foldl dockerStep acc).1.any (fun kv => kv.1 == p)) =
      (acc.1.any (fun kv => kv.1 == p) || rules.any (allowSel p)) := by
  induction rules generalizing acc with
  | nil => simp
  | cons r rest ih =>
      simp [List.foldl_cons, ih, dockerStep_fst_any, Bool.or_assoc]

lemma foldl_dockerStep_snd_any (rules : List DockerRule)
    (acc : List (String × String) × List (String × String)) (p : String) :
    ((rules.foldl dockerStep acc).2.any (fun kv => kv.1 == p)) =
      (acc.2.any (fun kv => kv.1 == p) || rules.any (blockSel p)) := by
  induction rules generalizing acc with
  | nil => simp
  | cons r rest ih =>
      simp [List.foldl_cons, ih, dockerStep_snd_any, Bool.or_assoc]

lemma evaluate_docker_rules_fst (data : FirewallData) :
    (evaluate_docker_rules data).1 =
      (data.DockerRules.any (allowSel "Public") ||
       data.DockerRules.any (allowSel "Private")) := by
  simp [evaluate_docker_rules, foldl_dockerStep_fst_any]

lemma evaluate_docker_rules_snd (data : FirewallData) :
    (evaluate_docker_rules data).2 =
      (data.DockerRules.any (blockSel "Public") ||
       data.DockerRules.any (blockSel "Private")) := by
  simp [evaluate_docker_rules, foldl_dockerStep_snd_any]

lemma docker_ok_iff (data : FirewallData) :
    (evaluate_docker_rules data).1 = true ↔
      ∃ r ∈ data.DockerRules,
        pyLower r.Enabled = "true" ∧ pyLower r.Action = "allow" ∧
          (pyCapitalize (pyStrip r.Profile) = "Public" ∨
           pyCapitalize (pyStrip r.Profile) = "Private") := by
  rw [evaluate_docker_rules_fst]
  simp only [Bool.or_eq_true, List.any_eq_true, allowSel, Bool.and_eq_true,
    beq_iff_eq]
  constructor
  · rintro (⟨r, hr, ⟨hen, hact⟩, hp⟩ | ⟨r, hr, ⟨hen, hact⟩, hp⟩)
    · exact ⟨r, hr, hen, hact, Or.inl hp⟩
    · exact ⟨r, hr, hen, hact, Or.inr hp⟩
  · rintro ⟨r, hr, hen, hact, hp | hp⟩
    · exact Or.inl ⟨r, hr, ⟨hen, hact⟩, hp⟩
    · exact Or.inr ⟨r, hr, ⟨hen, hact⟩, hp⟩

lemma has_blocked_iff (data : FirewallData) :
    (evaluate_docker_rules data).2 = true ↔
      ∃ r ∈ data.DockerRules,
        pyLower r.Enabled = "true" ∧ pyLower r.Action = "block" ∧
          (pyCapitalize (pyStrip r.Profile) = "Public" ∨
           pyCapitalize (pyStrip r.Profile) = "Private") := by
  rw [evaluate_docker_rules_snd]
  simp only [Bool.or_eq_true, List.any_eq_true, blockSel, Bool.and_eq_true,
    beq_iff_eq]
  constructor
  · rintro (⟨r, hr, ⟨hen, hact⟩, hp⟩ | ⟨r, hr, ⟨hen, hact⟩, hp⟩)
    · exact ⟨r, hr, hen, hact, Or.inl hp⟩
    · exact ⟨r, hr, hen, hact, Or.inr hp⟩
  · rintro ⟨r, hr, hen, hact, hp | hp⟩
    · exact Or.inl ⟨r, hr, ⟨hen, hact⟩, hp⟩
    · exact Or.inr ⟨r, hr, ⟨hen, hact⟩, hp⟩

lemma pyCapitalize_comma_mem {s : String} (h : ',' ∈ s.data) :
    ',' ∈ (pyCapitalize s).data := by
  unfold pyCapitalize
  cases hd : s.data with
  | nil => rw [hd] at h; exact absurd h (List.not_mem_nil _)
  | cons c cs =>
      rw [hd] at h
      rcases List.mem_cons.mp h with h1 | h1
      · have : c.toUpper = ',' := by rw [← h1]; decide
        exact this ▸ List.mem_cons_self _ _
      · exact List.mem_cons_of_mem _
          (List.mem_map.mpr ⟨',', h1, by decide⟩)

lemma comma_profile_not_single {s : String} (h : ',' ∈ s.data) {p : String}
    (hp : ',' ∉ p.data) : pyCapitalize s ≠ p := by
  intro he
  exact hp (he ▸ pyCapitalize_comma_mem h)

/-! ### Claim theorems -/

/-- C1 (counterexample): with two rules matching port 80, the first allowing
and the second blocking, the first recognized action among the matches is
`Allow`, yet the scan's resulting action field is `Block` — the claim that
the action field equals the first recognized action fails. -/
theorem scan_action_first_recognized_cex :
    firstRecognizedCap 80 [cexAllowRule, cexBlockRule] = some "Allow" ∧
    (scanPort 80 [cexAllowRule, cexBlockRule]).action = "Block" ∧
    (scanPort 80 [cexAllowRule, cexBlockRule]).action ≠ "Allow" := by
  refine ⟨by decide, by decide, by decide⟩

/-- C1 (amended): in the per-port rule scan, the resulting action field
equals the LAST recognized action (`Allow`/`Block`) encountered among the
matching rules (each recognized action overwrites the previous value); a
rule with an unrecognized or missing action labels the result `Unknown` only
when no action has been set yet and never overwrites an already-set action,
and the field stays empty when no rule matches. -/
theorem scan_action_is_last_recognized (port : Nat) (rules : List PortRule) :
    (scanPort port rules).action =
      (match lastRecognizedCap port rules with
       | some a => a
       | none =>
           if rules.any (fun r => matchesPort port r) then "Unknown"
           else "") := by
  rw [scanPort, foldl_updateResult_action]
  cases hL : lastRecognizedCap port rules with
  | some a => rfl
  | none =>
      show (if _ ∧ initResult.action = "" then "Unknown" else initResult.action) = _
      by_cases hA : rules.any (fun r => matchesPort port r) = true <;>
        simp [hA, initResult]

/-- C7: in the per-port rule scan, the `enabled` field of a port's result is
true iff at least one matching rule is enabled (OR semantics over matching
rules). -/
theorem scan_enabled_or_semantics (port : Nat) (rules : List PortRule) :
    (scanPort port rules).enabled = true ↔
      ∃ r ∈ rules, matchesPort port r = true ∧ pyLower r.Enabled = "true" := by
  rw [scanPort, foldl_updateResult_enabled]
  simp [initResult, List.any_eq_true, Bool.and_eq_true]

/-- C4: `evaluate_port_rules` is true iff every required port's result is
found, enabled, allowed and scoped to all profiles; and for a required port
that no rule matches, that port's `found` field is false and the whole port
check returns false. -/
theorem evaluate_port_rules_spec (requiredPorts : List Nat)
    (data : FirewallData) :
    (evaluate_port_rules requiredPorts data = true ↔
      ∀ port ∈ requiredPorts,
        (scanPort port data.PortRules).found = true ∧
        (scanPort port data.PortRules).enabled = true ∧
        (scanPort port data.PortRules).action = "Allow" ∧
        (scanPort port data.PortRules).all_profiles = true) ∧
    (∀ port ∈ requiredPorts,
      (∀ r ∈ data.PortRules, matchesPort port r = false) →
        (scanPort port data.PortRules).found = false ∧
        evaluate_port_rules requiredPorts data = false) := by
  have hiff : evaluate_port_rules requiredPorts data = true ↔
      ∀ port ∈ requiredPorts,
        (scanPort port data.PortRules).found = true ∧
        (scanPort port data.PortRules).enabled = true ∧
        (scanPort port data.PortRules).action = "Allow" ∧
        (scanPort port data.PortRules).all_profiles = true := by
    unfold evaluate_port_rules check_required_ports_exist
    simp [List.all_eq_true, Bool.and_eq_true, and_assoc]
  refine ⟨hiff, ?_⟩
  intro port hp hnone
  have hfound : (scanPort port data.PortRules).found = false := by
    rw [scanPort, foldl_updateResult_found]
    simp only [initResult, Bool.false_or]
    exact List.any_eq_false.mpr (by simpa using hnone)
  refine ⟨hfound, ?_⟩
  cases hev : evaluate_port_rules requiredPorts data with
  | false => rfl
  | true =>
      have := (hiff.mp hev port hp).1
      rw [hfound] at this
      exact absurd this (by simp)

/-- C4 (witness): with required ports 80 and 443 and only an allow rule for
port 80, port 443 is not found and the port check fails. -/
theorem evaluate_port_rules_spec_witness :
    (scanPort 443 cexPortData.PortRules).found = false ∧
    evaluate_port_rules [80, 443] cexPortData = false :=
  (evaluate_port_rules_spec [80, 443] cexPortData).2 443 (by decide)
    (by decide)

/-- C10: with an empty required-port list, `check_required_ports_exist`
returns an empty mapping for every rule list, `evaluate_port_rules` is
vacuously true for any data, and enforcing the port check makes no
difference to the overall gate. -/
theorem empty_required_ports_vacuous (port_rules : List PortRule)
    (data : FirewallData) (f1 f2 : Bool) :
    check_required_ports_exist [] port_rules = [] ∧
    evaluate_port_rules [] data = true ∧
    evaluate_firewall_conditions [] data f1 f2 true =
      evaluate_firewall_conditions [] data f1 f2 false := by
  refine ⟨rfl, rfl, ?_⟩
  simp [evaluate_firewall_conditions, evaluate_port_rules,
    check_required_ports_exist]

/-- C2: `evaluate_firewall_conditions` returns exactly
`activeProfileOk && backendRulesOk && portsOk && !anyBlocked`, each
sub-result forced to `true` (and `anyBlocked` to `false`) when its
enforcement flag is disabled and otherwise computed by its check function. -/
theorem evaluate_firewall_conditions_formula (requiredPorts : List Nat)
    (data : FirewallData) (f1 f2 f3 : Bool) :
    evaluate_firewall_conditions requiredPorts data f1 f2 f3 =
      gateSpecFormula requiredPorts data f1 f2 f3 := by
  unfold evaluate_firewall_conditions gateSpecFormula
  cases f2 <;> simp [Bool.and_assoc]

/-- C3: backend coverage holds iff some enabled Allow rule is bucketed under
Public or under Private (OR across the two profiles); `anyBlocked` holds iff
some enabled Block rule is bucketed under Public or Private; and whenever
`anyBlocked` holds and the backend check is enforced, the overall gate is
false regardless of the other checks. -/
theorem evaluate_docker_rules_spec (data : FirewallData) :
    ((evaluate_docker_rules data).1 = true ↔
      ∃ r ∈ data.DockerRules,
        pyLower r.Enabled = "true" ∧ pyLower r.Action = "allow" ∧
          (pyCapitalize (pyStrip r.Profile) = "Public" ∨
           pyCapitalize (pyStrip r.Profile) = "Private")) ∧
    ((evaluate_docker_rules data).2 = true ↔
      ∃ r ∈ data.DockerRules,
        pyLower r.Enabled = "true" ∧ pyLower r.Action = "block" ∧
          (pyCapitalize (pyStrip r.Profile) = "Public" ∨
           pyCapitalize (pyStrip r.Profile) = "Private")) ∧
    ((evaluate_docker_rules data).2 = true →
      ∀ (requiredPorts : List Nat) (f1 f3 : Bool),
        evaluate_firewall_conditions requiredPorts data f1 true f3 = false) := by
  refine ⟨docker_ok_iff data, has_blocked_iff data, ?_⟩
  intro hb requiredPorts f1 f3
  unfold evaluate_firewall_conditions
  simp [hb]

/-- C3 (witness): one enabled Block rule on Private makes `anyBlocked` true
and forces the gate to false with the backend check enforced, even with all
other checks disabled. -/
theorem evaluate_docker_rules_spec_witness :
    evaluate_firewall_conditions [] cexBlockData false true false = false :=
  (evaluate_docker_rules_spec cexBlockData).2.2 (by decide) [] false false

/-- C9: an enabled Allow or Block rule whose profile field names more than
one profile (a comma-separated string) is bucketed under neither `Public`
nor `Private`, because the whole string is capitalized and compared as one
key; appending such a rule changes neither coverage nor the block veto. -/
theorem multi_profile_rule_inert (data : FirewallData) (r : DockerRule)
    (h : ',' ∈ (pyStrip r.Profile).data) :
    evaluate_docker_rules
        { data with DockerRules := data.DockerRules ++ [r] } =
      evaluate_docker_rules data := by
  have hpubn : (',' ∈ "Public".data) → False := by decide
  have hprivn : (',' ∈ "Private".data) → False := by decide
  have hpub := comma_profile_not_single h hpubn
  have hpriv := comma_profile_not_single h hprivn
  have ha1 : allowSel "Public" r = false := by
    simp [allowSel, beq_eq_false_iff_ne.mpr hpub]
  have ha2 : allowSel "Private" r = false := by
    simp [allowSel, beq_eq_false_iff_ne.mpr hpriv]
  have hb1 : blockSel "Public" r = false := by
    simp [blockSel, beq_eq_false_iff_ne.mpr hpub]
  have hb2 : blockSel "Private" r = false := by
    simp [blockSel, beq_eq_false_iff_ne.mpr hpriv]
  refine Prod.ext ?_ ?_
  · rw [evaluate_docker_rules_fst, evaluate_docker_rules_fst]
    simp [List.any_append, ha1, ha2]
  · rw [evaluate_docker_rules_snd, evaluate_docker_rules_snd]
    simp [List.any_append, hb1, hb2]

/-- C9 (witness): appending a `"Private,Public"` Allow rule leaves the
docker-rule evaluation of concrete data unchanged. -/
theorem multi_profile_rule_inert_witness :
    evaluate_docker_rules
        { cexAllowData with
            DockerRules := cexAllowData.DockerRules ++ [cexMultiProfileRule] } =
      evaluate_docker_rules cexAllowData :=
  multi_profile_rule_inert cexAllowData cexMultiProfileRule (by decide)

/-- C5: a service in the ignore-list for the requested direction yields a
skipped `(True, 0.0)` outcome with no external invocation (neither status
probe nor compose command); ignore-lists are per-direction, so a service
ignored for down but not for up still gets a compose invocation on up. -/
theorem run_service_action_ignored (env : Env) (svc : String) :
    (svc ∈ env.ignoreUp →
       run_service_action env svc "up" = ((true, 0), [])) ∧
    (svc ∈ env.ignoreDown →
       run_service_action env svc "down" = ((true, 0), [])) ∧
    (svc ∈ env.ignoreDown → svc ∉ env.ignoreUp →
       run_service_action env svc "down" = ((true, 0), []) ∧
       (run_service_action env svc "up").2 = [Invocation.compose "up" svc]) := by
  have hud : ("up" == "down") = false := rfl
  have huu : ("up" == "up") = true := rfl
  have hdd : ("down" == "down") = true := rfl
  have hdu : ("down" == "up") = false := rfl
  refine ⟨?_, ?_, ?_⟩
  · intro h
    simp [run_service_action, huu, hud, h]
  · intro h
    simp [run_service_action, hdd, hdu, h]
  · intro h hnot
    refine ⟨by simp [run_service_action, hdd, hdu, h], ?_⟩
    simp [run_service_action, huu, hud, hnot,
      run_container_task_with_spinner, container_task, run_docker_compose]

/-- C5 (witness): in a concrete environment where `b` is down-ignored but
not up-ignored, `down` is skipped with no invocation and `up` issues exactly
the compose command. -/
theorem run_service_action_ignored_witness :
    run_service_action demoEnv "b" "down" = ((true, 0), []) ∧
    (run_service_action demoEnv "b" "up").2 = [Invocation.compose "up" "b"] :=
  ⟨((run_service_action_ignored demoEnv "b").2.2 (by decide) (by decide)).1,
   ((run_service_action_ignored demoEnv "b").2.2 (by decide) (by decide)).2⟩

/-- C6: the orphan sweep issues removal attempts exactly for the live names
outside `declaredServices ∪ downIgnoreList`: a name in the union is never
removed, and each live name outside the union gets exactly one removal
attempt. -/
theorem orphan_sweep_exact (rmOk : String → Bool)
    (expected ignoreDown running : List String) (hnd : running.Nodup)
    (n : String) :
    ((n ∈ expected ∨ n ∈ ignoreDown) →
       n ∉ (remove_orphan_containers rmOk expected ignoreDown running).map
         Prod.fst) ∧
    (n ∈ running → ¬(n ∈ expected ∨ n ∈ ignoreDown) →
       ((remove_orphan_containers rmOk expected ignoreDown running).map
         Prod.fst).count n = 1) ∧
    (n ∈ (remove_orphan_containers rmOk expected ignoreDown running).map
        Prod.fst →
       n ∈ running ∧ ¬(n ∈ expected ∨ n ∈ ignoreDown)) := by
  have hattempts :
      (remove_orphan_containers rmOk expected ignoreDown running).map Prod.fst
        = running.filter (fun c => !((expected ++ ignoreDown).contains c)) := by
    simp only [remove_orphan_containers, orphanedContainers, List.map_map]
    exact List.map_id' _
  have hmemc : ∀ c : String,
      ((expected ++ ignoreDown).contains c = true) ↔
        (c ∈ expected ∨ c ∈ ignoreDown) := by
    intro c; simp
  refine ⟨?_, ?_, ?_⟩
  · intro h hmem
    rw [hattempts] at hmem
    rcases List.mem_filter.mp hmem with ⟨_, h2⟩
    have hc : (expected ++ ignoreDown).contains n = true := (hmemc n).mpr h
    rw [hc] at h2
    exact Bool.false_ne_true h2
  · intro hr hnot
    rw [hattempts]
    have hp : (fun c => !((expected ++ ignoreDown).contains c)) n = true := by
      have hc : (expected ++ ignoreDown).contains n = false := by
        cases hc : (expected ++ ignoreDown).contains n
        · rfl
        · exact absurd ((hmemc n).mp hc) hnot
      show (!((expected ++ ignoreDown).contains n)) = true
      rw [hc]
      rfl
    exact List.count_eq_one_of_mem (hnd.filter _)
      (List.mem_filter.mpr ⟨hr, hp⟩)
  · intro hmem
    rw [hattempts] at hmem
    rcases List.mem_filter.mp hmem with ⟨h1, h2⟩
    refine ⟨h1, fun hor => ?_⟩
    have hc : (expected ++ ignoreDown).contains n = true := (hmemc n).mpr hor
    rw [hc] at h2
    exact Bool.false_ne_true h2

/-- C6 (witness): with declared `web`, empty down-ignore-list and live
containers `web` and `cache-old`, the sweep attempts to remove `cache-old`
exactly once and never touches `web`. -/
theorem orphan_sweep_exact_witness :
    ((remove_orphan_containers (fun _ => true) ["web"] []
        ["web", "cache-old"]).map Prod.fst).count "cache-old" = 1 ∧
    "web" ∉ (remove_orphan_containers (fun _ => true) ["web"] []
        ["web", "cache-old"]).map Prod.fst :=
  ⟨(orphan_sweep_exact (fun _ => true) ["web"] [] ["web", "cache-old"]
      (by decide) "cache-old").2.1 (by decide) (by decide),
   (orphan_sweep_exact (fun _ => true) ["web"] [] ["web", "cache-old"]
      (by decide) "web").1 (by decide)⟩

/-- C8: `parse_compose_services` fails soft: for each of the four failure
modes (file not found, permission denied, malformed YAML, generic I/O
error) it returns the empty service list together with that cause's
distinct log record — the four records are pairwise distinct — and, being a
total function, never raises. -/
theorem parse_compose_services_fail_soft :
    (∀ msg : String,
      parse_compose_services ReadOutcome.fileNotFound =
        ([], some ComposeLogError.fileNotFound) ∧
      parse_compose_services ReadOutcome.permissionDenied =
        ([], some ComposeLogError.permissionDenied) ∧
      parse_compose_services (ReadOutcome.yamlError msg) =
        ([], some ComposeLogError.yamlError) ∧
      parse_compose_services (ReadOutcome.osError msg) =
        ([], some ComposeLogError.osError)) ∧
    List.Pairwise (· ≠ ·)
      [ComposeLogError.fileNotFound, ComposeLogError.permissionDenied,
       ComposeLogError.yamlError, ComposeLogError.osError] :=
  ⟨fun _ => ⟨rfl, rfl, rfl, rfl⟩, by decide⟩

end DockerComposeManager
